import Mathlib

/-!
Shallow embedding of the xmlinfoset-rs library: the XML Information Set data
model (src/lib.rs) and the token-driven construction algorithm
(src/parse.rs).  Byte offsets are plain naturals.  Panicking control flow in
the source (`todo!()`, `Option::unwrap` on `None`) is modelled by the
`POut.panic` outcome.  The external tokenizer (the `xmlparser` crate) and the
`repo` entity-arena macros are collaborators outside the source tree of this repository; the few places that rely on their behaviour are modelled from
the spec and carry a doc comment saying so.
-/

namespace XmlInfoset

/-- Span (src/lib.rs line 102): a half-open byte range into the input. -/
structure Span where
  start : Nat
  stop : Nat
deriving DecidableEq

/-- StrSpan of the external xmlparser crate.  Modelled from the spec (§6):
each event carries byte-offset spans into the input buffer, here rendered as
the spanned text together with its start byte offset. -/
structure StrSpan where
  text : String
  start : Nat
deriving DecidableEq

/-- Byte range of a StrSpan (the method range of the crate). -/
def StrSpan.range (v : StrSpan) : Span :=
  ⟨v.start, v.start + v.text.utf8ByteSize⟩

/-- The `as_str` view of a StrSpan. -/
def StrSpan.asStr (v : StrSpan) : String := v.text

/-- Modelled from the spec: equality of two StrSpans as used by the
closing-tag check of src/parse.rs line 351 (§4.4: the popped frame must carry an opening name exactly matching the name of the end token); the spanned name
text is compared. -/
def StrSpan.nameEq (a b : StrSpan) : Bool := a.text == b.text

/-- FromXmlStrSpan for Span (src/parse.rs lines 14-18). -/
def spanFromXmlStrSpan (v : StrSpan) : Span := v.range

/-- range_is_empty (src/parse.rs lines 22-24). -/
def rangeIsEmpty (r : Span) : Bool := !(decide (r.start < r.stop))

/-- FromXmlStrSpan for Option Span (src/parse.rs lines 20-32): an empty
captured range is stored as `none`, a non-empty one as `some` of exactly
that range. -/
def optSpanFromXmlStrSpan (v : StrSpan) : Option Span :=
  let r := v.range
  if rangeIsEmpty r then none else some r

/-- Opaque stand-in for `xmlparser::Error` values; the parser only clones
and wraps them (src/parse.rs lines 90, 113, 201, 219). -/
structure XmlparserError where
  code : Nat
deriving DecidableEq

/-- ParseError (src/parse.rs lines 34-46). -/
inductive ParseError where
  | TokenError (e : XmlparserError)
  | UnexpectedToken
  | UnexpectedEOF
  | DuplicateNSAttribute
  | DuplicateRootElement
deriving DecidableEq

/-- ElementEnd payload of xmlparser: `>`, `/>`, or `</name>`. -/
inductive ElementEndTok where
  | Open
  | Empty
  | Close (pfx localName : StrSpan)
deriving DecidableEq

/-- Tokens of the external xmlparser crate, restricted to the payload fields
src/parse.rs destructures (whole-token `span` fields and the DTD payloads,
which the source matches with `{ .. }`, are omitted). -/
inductive XmlToken where
  | Declaration (version : StrSpan) (encoding : Option StrSpan) (standalone : Option Bool)
  | DtdStart
  | EmptyDtd
  | ElementStart (pfx localName : StrSpan)
  | Attribute (pfx localName value : StrSpan)
  | ElementEnd (e : ElementEndTok)
  | Text (text : StrSpan)
  | Cdata (text : StrSpan)
  | Comment (text : StrSpan)
  | ProcessingInstruction (target : StrSpan) (content : Option StrSpan)
deriving DecidableEq

/-- Decidable equality for Except values, used to evaluate results on
concrete inputs. -/
instance {ε α : Type} [DecidableEq ε] [DecidableEq α] : DecidableEq (Except ε α) := fun a b =>
  match a, b with
  | .ok x, .ok y =>
    if h : x = y then .isTrue (by rw [h]) else .isFalse (by simp [h])
  | .error x, .error y =>
    if h : x = y then .isTrue (by rw [h]) else .isFalse (by simp [h])
  | .ok _, .error _ => .isFalse (by simp)
  | .error _, .ok _ => .isFalse (by simp)

/-- One item of the tokenizer stream: `Result<Token, xmlparser::Error>`. -/
abbrev XmlTokenR := Except XmlparserError XmlToken

/-- Version (src/lib.rs lines 120-125). -/
inductive Version where
  | Version1_0
  | Version1_1
  | Other (s : String)
deriving DecidableEq

/-- EncodingScheme (src/lib.rs lines 127-131). -/
inductive EncodingScheme where
  | Utf8
  | Other (s : String)
deriving DecidableEq

/-- CowSpan (src/lib.rs lines 133-137). -/
inductive CowSpan where
  | Borrowed (s : Span)
  | Owned (s : String)
deriving DecidableEq

/-- UnknownOr (src/lib.rs lines 148-152). -/
inductive UnknownOr (α : Type) where
  | Unknown
  | Known (v : α)
deriving DecidableEq

/-- ElementChildInfoItem (src/lib.rs lines 62-69); handles are arena indices. -/
inductive ElementChildInfoItem where
  | Element (h : Nat)
  | PI (h : Nat)
  | UER (h : Nat)
  | CharGroup (h : Nat)
  | Comment (h : Nat)
deriving DecidableEq

/-- DocChildInfoItem (src/lib.rs lines 54-60). -/
inductive DocChildInfoItem where
  | Element (h : Nat)
  | PI (h : Nat)
  | Comment (h : Nat)
  | DTD (h : Nat)
deriving DecidableEq

/-- ElementParentInfoItem (src/lib.rs lines 75-79). -/
inductive ElementParentInfoItem where
  | Doc (h : Nat)
  | Element (h : Nat)
deriving DecidableEq

/-- CommentParentInfoItem (src/lib.rs lines 95-99). -/
inductive CommentParentInfoItem where
  | Doc (h : Nat)
  | Element (h : Nat)
deriving DecidableEq

/-- PIParentInfoItem (src/lib.rs lines 88-93). -/
inductive PIParentInfoItem where
  | Doc (h : Nat)
  | Element (h : Nat)
  | DTD (h : Nat)
deriving DecidableEq

/-- ElementInfoItem record (src/lib.rs lines 272-287).  The field `pfx`
renders the source field `prefix`; attribute and namespace handles are arena
indices. -/
structure ElementInfoItemData where
  namespace_name : Option Span
  local_name : Span
  pfx : Option Span
  children : List ElementChildInfoItem
  attributes : List Nat
  namespace_attributes : List Nat
  in_scope_namespaces : List Nat
  base_uri : Option Span
  parent : ElementParentInfoItem
deriving DecidableEq

/-- CommentInfoItem record (src/lib.rs lines 345-349). -/
structure CommentInfoItemData where
  content : Span
  parent : CommentParentInfoItem
deriving DecidableEq

/-- PIInfoItem record (src/lib.rs lines 320-327); `notation_info` renders
the source field holding the optional notation reference. -/
structure PIInfoItemData where
  target : Span
  content : Option Span
  base_uri : Option Span
  notation_info : Option (UnknownOr Nat)
  parent : PIParentInfoItem
deriving DecidableEq

/-- CharGroupInfoItem record (src/lib.rs lines 338-343). -/
structure CharGroupInfoItemData where
  characters : CowSpan
  element_content_whitespace : UnknownOr (Option Bool)
  parent : Nat
deriving DecidableEq

/-- DocInfoItem (src/lib.rs lines 154-180): the two lifecycle states of the
document item. -/
inductive DocInfoItemData where
  | NotYetParsed
  | Parsed (version : Version) (character_encoding_scheme : Option EncodingScheme)
      (standalone : Option Bool) (document_element : Nat)
      (children : List DocChildInfoItem) (notations : Option (List Nat))
      (unparsed_entities : List Nat) (base_uri : Option Span)
      (all_declarations_processed : Bool)
deriving DecidableEq

/-- InfoSetData (src/lib.rs lines 11-28): the entity arenas plus the
optional handle of the document item.  Arenas for node kinds the parser
never creates are carried where a claim refers to them. -/
structure InfoSetData where
  docs : List DocInfoItemData := []
  elements : List ElementInfoItemData := []
  comments : List CommentInfoItemData := []
  pis : List PIInfoItemData := []
  chargroups : List CharGroupInfoItemData := []
  doc_info_item : Option Nat := none
deriving DecidableEq

/-- InfoSetStatistics (src/lib.rs lines 49-52). -/
structure InfoSetStatistics where
  has_nonstandard_entity_reference : Bool := false
deriving DecidableEq

/-- InfoSet (src/lib.rs lines 30-33): the retained input plus the arenas. -/
structure InfoSet where
  input : String
  data : InfoSetData
deriving DecidableEq

/-- SpanError (src/lib.rs lines 110-112). -/
inductive SpanError where
  | mk
deriving DecidableEq

/-- Span::get (src/lib.rs lines 104-108), i.e. `str::get` on a byte range
against the retained input; the range is valid when it is ordered, inside
the buffer and both ends are character boundaries. -/
def Span.get (s : Span) (infoset : InfoSet) : Except SpanError String :=
  if s.start ≤ s.stop ∧ s.stop ≤ infoset.input.utf8ByteSize
      ∧ String.Pos.isValid infoset.input ⟨s.start⟩
      ∧ String.Pos.isValid infoset.input ⟨s.stop⟩ then
    Except.ok (String.extract infoset.input ⟨s.start⟩ ⟨s.stop⟩)
  else
    Except.error SpanError.mk

/-- parse_version (src/parse.rs lines 369-377). -/
def parse_version (version : String) : Version :=
  if version == "1.0" then .Version1_0
  else if version == "1.1" then .Version1_1
  else .Other version

/-- parse_encoding_scheme (src/parse.rs lines 379-385). -/
def parse_encoding_scheme (encoding_scheme : String) : EncodingScheme :=
  if encoding_scheme == "UTF-8" then .Utf8
  else .Other encoding_scheme

/-- Outcome of running a piece of the parser: normal return, early error
return, or a panic (`todo!()` or `unwrap` of `None`). -/
inductive POut (α : Type) where
  | ok (v : α)
  | err (e : ParseError)
  | panic
deriving DecidableEq

/-- Map the success value of an outcome. -/
def POut.mapVal {α β : Type} (f : α → β) : POut α → POut β
  | .ok v => .ok (f v)
  | .err e => .err e
  | .panic => .panic

/-- ElementInfoItem::new, generated by the entity macro and invoked at
src/parse.rs lines 260-275.  Modelled from the spec (§4.1): insertion
appends the fully-formed node to its arena and returns the fresh handle.
Field order follows src/lib.rs lines 272-287. -/
def newElementInfoItem (repo : InfoSetData) (namespace_name : Option Span) (local_name : Span)
    (pfx : Option Span) (children : List ElementChildInfoItem) (attributes : List Nat)
    (namespace_attributes : List Nat) (in_scope_namespaces : List Nat)
    (base_uri : Option Span) (parent : ElementParentInfoItem) : Nat × InfoSetData :=
  (repo.elements.length,
   { repo with elements := repo.elements ++
      [⟨namespace_name, local_name, pfx, children, attributes,
        namespace_attributes, in_scope_namespaces, base_uri, parent⟩] })

/-- CommentInfoItem::new, invoked at src/parse.rs lines 308-312; arena
insertion modelled from the spec (§4.1) as for elements. -/
def newCommentInfoItem (repo : InfoSetData) (content : Span)
    (parent : CommentParentInfoItem) : Nat × InfoSetData :=
  (repo.comments.length, { repo with comments := repo.comments ++ [⟨content, parent⟩] })

/-- PIInfoItem::new, invoked at src/parse.rs lines 327-334; arena insertion
modelled from the spec (§4.1) as for elements. -/
def newPIInfoItem (repo : InfoSetData) (target : Span) (content : Option Span)
    (base_uri : Option Span) (notation_info : Option (UnknownOr Nat))
    (parent : PIParentInfoItem) : Nat × InfoSetData :=
  (repo.pis.length,
   { repo with pis := repo.pis ++ [⟨target, content, base_uri, notation_info, parent⟩] })

/-- DocInfoItem::new_not_yet_parsed (src/parse.rs line 60).  Modelled from
the spec (§4.2): the document slot is preallocated empty so the root
parent link of the root element can name it. -/
def newNotYetParsedDocInfoItem (repo : InfoSetData) : Nat × InfoSetData :=
  (repo.docs.length, { repo with docs := repo.docs ++ [.NotYetParsed] })

/-- transition_to_parsed_from_not_yet_parsed (src/parse.rs lines 146-157):
the deferred document fields are written in one step; the placeholder
arguments are the literal `fixme_impl!` values of lines 151-155.  The
write-once slot initialization itself is modelled from the spec (§4.2). -/
def transition_to_parsed_from_not_yet_parsed (repo : InfoSetData) (doc_info_item : Nat)
    (version : Version) (character_encoding_scheme : Option EncodingScheme)
    (standalone : Option Bool) (document_element : Nat) : InfoSetData :=
  { repo with docs := repo.docs.set doc_info_item (.Parsed version
      character_encoding_scheme standalone document_element [] none [] none true) }

/-- append_to_element_as_child (src/parse.rs lines 169-176): the body
resolves the children list of the parent and then executes `todo!()`, so every
call panics. -/
def append_to_element_as_child (repo : InfoSetData) (parent : Nat)
    (v : ElementChildInfoItem) : POut InfoSetData :=
  POut.panic

/-- parse_dtd (src/parse.rs lines 162-167): the body is `todo!()`, so every
call panics. -/
def parse_dtd (repo : InfoSetData) : POut InfoSetData :=
  POut.panic

/-- DocState of parse_xml_doc (src/parse.rs lines 75-81). -/
inductive DocState where
  | Initial
  | AfterXmlDecl
  | AfterDTD
  | AfterRootElement
  | Done
deriving DecidableEq

/-- ParseState of parse_element_tree (src/parse.rs lines 190-196). -/
inductive ElemParseState where
  | Initial
  | AfterDescent
  | AfterAppend
  | AfterUnwind
  | Done
deriving DecidableEq

/-- ParseStackEntry (src/parse.rs lines 183-187); `pfx` renders the source
field `prefix`.  The head of the list is the top of the stack. -/
structure ParseStackEntry where
  element_info_item : Nat
  pfx : StrSpan
  local_name : StrSpan
deriving DecidableEq

/-- Accumulators of the attribute sub-loop (src/parse.rs lines 210-213)
together with the pending element-start names the surrounding ElementStart
arm destructured (lines 205-209). -/
structure AttrAccum where
  elemPfx : StrSpan
  elemLocal : StrSpan
  non_namespace_attrs : List (StrSpan × StrSpan × StrSpan)
  namespace_attributes : List (StrSpan × StrSpan)
  default_namespace_attribute : Option (StrSpan × StrSpan)
deriving DecidableEq

/-- Whether the element machine is in the outer content loop
(the loop labelled parse_elem_tree) or inside the attribute sub-loop (labelled parse_attr_list)
of an element-start.  Both loops of src/parse.rs pull from the same token
iterator, so together they form one token-at-a-time machine. -/
inductive ElemPhase where
  | content
  | attrs (acc : AttrAccum)
deriving DecidableEq

/-- The element-subtree machine: the locals of parse_element_tree
(src/parse.rs lines 188-197) plus the loop phase. -/
structure ElemMachine where
  parse_stack : List ParseStackEntry
  root : Option Nat
  parse_state : ElemParseState
  phase : ElemPhase
deriving DecidableEq

/-- Result of feeding one token to the element machine: continue with new
arenas and machine, finish returning the root handle (the
break paths of the labelled loop), fail with an error, or panic. -/
inductive StepOut where
  | cont (repo : InfoSetData) (m : ElemMachine)
  | finished (repo : InfoSetData) (root : Nat)
  | fail (e : ParseError)
  | panic
deriving DecidableEq

/-- Exit of the attribute sub-loop (src/parse.rs lines 255-298): the element
node is created, appended to its parent (or registered as root), and the
machine either descends (push), stays at the same depth, or — for a
self-closed root — finishes. -/
def finishAttrList (repo : InfoSetData) (doc_info_item : Nat) (m : ElemMachine)
    (acc : AttrAccum) (self_close : Bool) : StepOut :=
  let parent := (m.parse_stack.head?).map (fun e => e.element_info_item)
  let created := newElementInfoItem repo
      none (spanFromXmlStrSpan acc.elemLocal) (optSpanFromXmlStrSpan acc.elemPfx)
      [] [] [] [] none
      (match parent with
       | some e => ElementParentInfoItem.Element e
       | none => ElementParentInfoItem.Doc doc_info_item)
  let element_info_item := created.1
  let repo2 := created.2
  let proceed : InfoSetData → Option Nat → StepOut := fun repo3 root2 =>
    if !self_close then
      .cont repo3 ⟨⟨element_info_item, acc.elemPfx, acc.elemLocal⟩ :: m.parse_stack,
                   root2, .AfterDescent, .content⟩
    else
      match parent with
      | some _ => .cont repo3 ⟨m.parse_stack, root2, .AfterAppend, .content⟩
      | none => .finished repo3 element_info_item
  match parent with
  | some p =>
    match append_to_element_as_child repo2 p (.Element element_info_item) with
    | .ok repo3 => proceed repo3 m.root
    | .err e => .fail e
    | .panic => .panic
  | none =>
    if m.root.isSome then .fail .DuplicateRootElement
    else proceed repo2 (some element_info_item)

/-- One token of the element-subtree machine (src/parse.rs lines 198-363):
the attribute sub-loop arms when in the attrs phase, the outer
the outer labelled-loop arms when in the content phase. -/
def elemStep (repo : InfoSetData) (doc_info_item : Nat) (m : ElemMachine)
    (tok : XmlToken) : StepOut :=
  match m.phase with
  | .attrs acc =>
    match tok with
    | .Attribute attr_pfx attr_local attr_value =>
      if attr_pfx.asStr.isEmpty && attr_local.asStr == "xmlns" then
        match acc.default_namespace_attribute with
        | some _ => .fail .DuplicateNSAttribute
        | none => .cont repo ⟨m.parse_stack, m.root, m.parse_state,
            .attrs { acc with default_namespace_attribute := some (attr_local, attr_value) }⟩
      else if attr_pfx.asStr == "xmlns" then
        .cont repo ⟨m.parse_stack, m.root, m.parse_state,
            .attrs { acc with namespace_attributes :=
              acc.namespace_attributes ++ [(attr_local, attr_value)] }⟩
      else
        .cont repo ⟨m.parse_stack, m.root, m.parse_state,
            .attrs { acc with non_namespace_attrs :=
              acc.non_namespace_attrs ++ [(attr_pfx, attr_local, attr_value)] }⟩
    | .ElementEnd .Open => finishAttrList repo doc_info_item m acc false
    | .ElementEnd .Empty => finishAttrList repo doc_info_item m acc true
    | _ => .fail .UnexpectedToken
  | .content =>
    match tok with
    | .ElementStart epfx elocal =>
      .cont repo ⟨m.parse_stack, m.root, m.parse_state, .attrs ⟨epfx, elocal, [], [], none⟩⟩
    | .Comment text =>
      match m.parse_state with
      | .AfterDescent | .AfterAppend | .AfterUnwind =>
        match m.parse_stack with
        | [] => .panic
        | top :: _ =>
          let created := newCommentInfoItem repo (spanFromXmlStrSpan text)
              (.Element top.element_info_item)
          match append_to_element_as_child created.2 top.element_info_item
              (.Comment created.1) with
          | .ok repo3 => .cont repo3 ⟨m.parse_stack, m.root, .AfterAppend, .content⟩
          | .err e => .fail e
          | .panic => .panic
      | _ => .fail .UnexpectedToken
    | .ProcessingInstruction target content =>
      match m.parse_state with
      | .AfterDescent | .AfterAppend | .AfterUnwind =>
        match m.parse_stack with
        | [] => .panic
        | top :: _ =>
          let created := newPIInfoItem repo (spanFromXmlStrSpan target)
              (content.map spanFromXmlStrSpan) none none (.Element top.element_info_item)
          match append_to_element_as_child created.2 top.element_info_item
              (.PI created.1) with
          | .ok repo3 => .cont repo3 ⟨m.parse_stack, m.root, .AfterAppend, .content⟩
          | .err e => .fail e
          | .panic => .panic
      | _ => .fail .UnexpectedToken
    | .ElementEnd e =>
      match m.parse_state with
      | .AfterDescent | .AfterAppend | .AfterUnwind =>
        match e with
        | .Close p l =>
          match m.parse_stack with
          | entry :: rest_stack =>
            if entry.pfx.nameEq p && entry.local_name.nameEq l then
              if rest_stack.isEmpty then
                match m.root with
                | some r => .finished repo r
                | none => .panic
              else .cont repo ⟨rest_stack, m.root, .AfterUnwind, .content⟩
            else .fail .UnexpectedToken
          | [] => .fail .UnexpectedToken
        | _ => .fail .UnexpectedToken
      | _ => .fail .UnexpectedToken
    | _ => .fail .UnexpectedToken

/-- Mode of the whole-document run: the document-level loop of parse_xml_doc
(src/parse.rs lines 110-139) or the element-subtree machine it delegates to. -/
inductive RunMode where
  | doc (state : DocState) (root_element : Option Nat)
  | elem (m : ElemMachine)
deriving DecidableEq

/-- The document-level loop plus the element-subtree machine, consuming one
token per step (src/parse.rs lines 110-139 and 198-363).  The source peeks
tokens at the document level and lets parse_element_tree consume them; here
the peeked token is simply handled by the first step of the element machine.  At
end of stream the document loop exits normally returning its state, while
the element machine reports UnexpectedEOF (lines 200, 218). -/
def parseRun (repo : InfoSetData) (doc_info_item : Nat) (mode : RunMode) :
    List XmlTokenR → POut (InfoSetData × Option Nat × DocState)
  | [] =>
    match mode with
    | .doc st root_element => .ok (repo, root_element, st)
    | .elem _ => .err .UnexpectedEOF
  | .error e :: _ => .err (.TokenError e)
  | .ok tok :: rest =>
    match mode with
    | .doc st root_element =>
      match tok with
      | .DtdStart | .EmptyDtd =>
        match st with
        | .AfterXmlDecl =>
          match parse_dtd repo with
          | .ok repo2 => parseRun repo2 doc_info_item (.doc .AfterDTD root_element) rest
          | .err e => .err e
          | .panic => .panic
        | _ => .err .UnexpectedToken
      | .ElementStart epfx elocal =>
        match st with
        | .AfterXmlDecl | .AfterDTD =>
          match elemStep repo doc_info_item ⟨[], none, .Initial, .content⟩
              (.ElementStart epfx elocal) with
          | .cont repo2 m2 => parseRun repo2 doc_info_item (.elem m2) rest
          | .finished repo2 r =>
            parseRun repo2 doc_info_item (.doc .AfterRootElement (some r)) rest
          | .fail e => .err e
          | .panic => .panic
        | _ => .err .UnexpectedToken
      | .Comment _ => parseRun repo doc_info_item (.doc st root_element) rest
      | .ProcessingInstruction _ _ => parseRun repo doc_info_item (.doc st root_element) rest
      | _ => .err .UnexpectedToken
    | .elem m =>
      match elemStep repo doc_info_item m tok with
      | .cont repo2 m2 => parseRun repo2 doc_info_item (.elem m2) rest
      | .finished repo2 r =>
        parseRun repo2 doc_info_item (.doc .AfterRootElement (some r)) rest
      | .fail e => .err e
      | .panic => .panic

/-- Leading XML-declaration handling of parse_xml_doc (src/parse.rs lines
85-106): peek one token; consume it only when it is a Declaration; a leading
tokenizer error is wrapped and surfaced. -/
def parseXmlDecl :
    List XmlTokenR →
      POut ((Option Version × Option EncodingScheme × Option Bool) × List XmlTokenR)
  | [] => .ok ((none, none, none), [])
  | .error e :: _ => .err (.TokenError e)
  | .ok (.Declaration version encoding standalone) :: rest =>
    .ok ((some (parse_version version.asStr),
          encoding.map (fun x => parse_encoding_scheme x.asStr),
          standalone), rest)
  | .ok tok :: rest => .ok ((none, none, none), .ok tok :: rest)

/-- parse_xml_doc (src/parse.rs lines 70-160): declaration handling, the
document loop, the end-of-stream state check, and the one-shot transition of
the document item with defaulted version/encoding/standalone. -/
def parse_xml_doc (repo : InfoSetData) (doc_info_item : Nat) (ts : List XmlTokenR) :
    POut InfoSetData :=
  match parseXmlDecl ts with
  | .err e => .err e
  | .panic => .panic
  | .ok ((xml_version, xml_encoding, xml_standalone), rest) =>
    match parseRun repo doc_info_item (.doc .AfterXmlDecl none) rest with
    | .err e => .err e
    | .panic => .panic
    | .ok (repo2, root_element, stF) =>
      match stF with
      | .AfterRootElement =>
        match root_element with
        | some r =>
          .ok (transition_to_parsed_from_not_yet_parsed repo2 doc_info_item
            (xml_version.getD .Version1_0) xml_encoding xml_standalone r)
        | none => .panic
      | _ => .err .UnexpectedEOF

/-- parse_with_statistics (src/parse.rs lines 53-68): preallocate the
document item, run parse_xml_doc, record the document handle, and pair the
result with the (never updated) default statistics. -/
def parse_with_statistics (input : String) (ts : List XmlTokenR) :
    POut (InfoSet × InfoSetStatistics) :=
  let repo0 : InfoSetData := {}
  let alloc := newNotYetParsedDocInfoItem repo0
  let doc_info_item := alloc.1
  let repo1 := alloc.2
  match parse_xml_doc repo1 doc_info_item ts with
  | .ok repo2 =>
    .ok ({ input := input,
           data := { repo2 with doc_info_item := some doc_info_item } }, {})
  | .err e => .err e
  | .panic => .panic

/-- parse (src/parse.rs lines 48-51): parse_with_statistics with the
statistics component dropped.  The token stream argument stands for the
event stream of the external tokenizer over the input (§6). -/
def parse (input : String) (ts : List XmlTokenR) : POut InfoSet :=
  match parse_with_statistics input ts with
  | .ok (i, _s) => .ok i
  | .err e => .err e
  | .panic => .panic

/-- Resolve the document item of a parse result: the stored handle followed
by an arena lookup (the accessor pattern of src/lib.rs lines 182-270; a
failed lookup models the unwrap panic of the accessors as `none`). -/
def docOf (iset : InfoSet) : Option DocInfoItemData :=
  match iset.data.doc_info_item with
  | some h => iset.data.docs.get? h
  | none => none

/-- DocInfoItem::version (src/lib.rs lines 183-185). -/
def docVersion (iset : InfoSet) : Option Version :=
  match docOf iset with
  | some (.Parsed v _ _ _ _ _ _ _ _) => some v
  | _ => none

/-- DocInfoItem::character_encoding_scheme (src/lib.rs lines 191-193). -/
def docEncodingScheme (iset : InfoSet) : Option (Option EncodingScheme) :=
  match docOf iset with
  | some (.Parsed _ e _ _ _ _ _ _ _) => some e
  | _ => none

/-- DocInfoItem::standalone (src/lib.rs lines 203-205). -/
def docStandalone (iset : InfoSet) : Option (Option Bool) :=
  match docOf iset with
  | some (.Parsed _ _ sa _ _ _ _ _ _) => some sa
  | _ => none

/-- DocInfoItem::document_element (src/lib.rs lines 211-213). -/
def docDocumentElement (iset : InfoSet) : Option Nat :=
  match docOf iset with
  | some (.Parsed _ _ _ de _ _ _ _ _) => some de
  | _ => none

/-- Element arena lookup by handle. -/
def elementOf (iset : InfoSet) (h : Nat) : Option ElementInfoItemData :=
  iset.data.elements.get? h

/-- Whether a stream item is an Attribute token (the tokens the attribute
sub-loop consumes without leaving it). -/
def isAttrTok : XmlTokenR → Bool
  | .ok (.Attribute _ _ _) => true
  | _ => false

/-- Whether a stream item is an unprefixed `xmlns` attribute token — the
condition of src/parse.rs line 226. -/
def isDefaultNSTok : XmlTokenR → Bool
  | .ok (.Attribute p l _) => p.asStr.isEmpty && l.asStr == "xmlns"
  | _ => false

/-- Number of unprefixed `xmlns` attribute tokens in the leading attribute
segment of a stream. -/
def countDefaultNS (ts : List XmlTokenR) : Nat :=
  (ts.takeWhile isAttrTok).countP (fun t => isDefaultNSTok t)

/-- Whether a stream starts with an XML declaration token. -/
def isDeclHead : List XmlTokenR → Bool
  | .ok (.Declaration _ _ _) :: _ => true
  | _ => false

/-- All element nodes of the arena carry empty attribute and
namespace-attribute lists. -/
def allAttrsEmpty (repo : InfoSetData) : Prop :=
  ∀ e ∈ repo.elements, e.attributes = [] ∧ e.namespace_attributes = []

/-- Arena change effected by one accepted element-machine step: the document
and char-group arenas are untouched, and the element arena either is
untouched or grows by one node with empty attribute lists. -/
def RepoStep (repo repo2 : InfoSetData) : Prop :=
  repo2.docs = repo.docs ∧ repo2.chargroups = repo.chargroups ∧
  (repo2.elements = repo.elements ∨
   ∃ e, repo2.elements = repo.elements ++ [e] ∧
     e.attributes = [] ∧ e.namespace_attributes = [])

/-- Arena invariant over a whole accepted run. -/
def RepoInv (repo repo2 : InfoSetData) : Prop :=
  repo2.docs = repo.docs ∧ repo2.chargroups = repo.chargroups ∧
  (allAttrsEmpty repo → allAttrsEmpty repo2)

/-- Arenas produced, if any, by a machine step. -/
def StepOut.repoOf : StepOut → Option InfoSetData
  | .cont r _ => some r
  | .finished r _ => some r
  | .fail _ => none
  | .panic => none

/-- Input of scenario C1. -/
def c1input : String := "<a/><b/>"

/-- Modelled from the spec (§6): the event stream of the external tokenizer on
the input `<a/><b/>`. -/
def c1tokens : List XmlTokenR :=
  [.ok (.ElementStart ⟨"", 1⟩ ⟨"a", 1⟩), .ok (.ElementEnd .Empty),
   .ok (.ElementStart ⟨"", 5⟩ ⟨"b", 5⟩), .ok (.ElementEnd .Empty)]

/-- Input of scenario C2. -/
def c2input : String := "<a><b/><!--c--></a>"

/-- Modelled from the spec (§6): the event stream of the external tokenizer on
the input `<a><b/><!--c--></a>`. -/
def c2tokens : List XmlTokenR :=
  [.ok (.ElementStart ⟨"", 1⟩ ⟨"a", 1⟩), .ok (.ElementEnd .Open),
   .ok (.ElementStart ⟨"", 4⟩ ⟨"b", 4⟩), .ok (.ElementEnd .Empty),
   .ok (.Comment ⟨"c", 11⟩),
   .ok (.ElementEnd (.Close ⟨"", 17⟩ ⟨"a", 17⟩))]

/-- Input of scenario C3. -/
def c3input : String := "<a/>"

/-- Modelled from the spec (§6): the event stream of the external tokenizer on
the input `<a/>`. -/
def c3tokens : List XmlTokenR :=
  [.ok (.ElementStart ⟨"", 1⟩ ⟨"a", 1⟩), .ok (.ElementEnd .Empty)]

/-- The element node `parse` builds for `<a/>`. -/
def c3rootElem : ElementInfoItemData :=
  ⟨none, ⟨1, 2⟩, none, [], [], [], [], none, .Doc 0⟩

/-- The infoset value `parse` produces for `<a/>`. -/
def c3result : InfoSet :=
  { input := "<a/>",
    data := { docs := [.Parsed .Version1_0 none none 0 [] none [] none true],
              elements := [c3rootElem],
              comments := [], pis := [], chargroups := [],
              doc_info_item := some 0 } }

/-- Input of scenario C6. -/
def c6input : String := "<a xmlns=\"urn:x\" xmlns=\"urn:y\"/>"

/-- Modelled from the spec (§6): the event stream of the external tokenizer on
the input with two default-namespace declarations. -/
def c6tokens : List XmlTokenR :=
  [.ok (.ElementStart ⟨"", 1⟩ ⟨"a", 1⟩),
   .ok (.Attribute ⟨"", 3⟩ ⟨"xmlns", 3⟩ ⟨"urn:x", 10⟩),
   .ok (.Attribute ⟨"", 17⟩ ⟨"xmlns", 17⟩ ⟨"urn:y", 24⟩),
   .ok (.ElementEnd .Empty)]

/-- Input of scenario C7. -/
def c7input : String := "<a></b>"

/-- Modelled from the spec (§6): the event stream of the external tokenizer on
the input `<a></b>`. -/
def c7tokens : List XmlTokenR :=
  [.ok (.ElementStart ⟨"", 1⟩ ⟨"a", 1⟩), .ok (.ElementEnd .Open),
   .ok (.ElementEnd (.Close ⟨"", 5⟩ ⟨"b", 5⟩))]

/-- Input of the concrete C10 scenario. -/
def c10input : String := "<a>x</a>"

/-- Modelled from the spec (§6): the event stream of the external tokenizer on
the input `<a>x</a>`. -/
def c10tokens : List XmlTokenR :=
  [.ok (.ElementStart ⟨"", 1⟩ ⟨"a", 1⟩), .ok (.ElementEnd .Open),
   .ok (.Text ⟨"x", 3⟩),
   .ok (.ElementEnd (.Close ⟨"", 6⟩ ⟨"a", 6⟩))]

/-- Input of the C10 counterexample. -/
def c10binput : String := "<a><b/>x</a>"

/-- Modelled from the spec (§6): the event stream of the external tokenizer on
the input `<a><b/>x</a>`. -/
def c10btokens : List XmlTokenR :=
  [.ok (.ElementStart ⟨"", 1⟩ ⟨"a", 1⟩), .ok (.ElementEnd .Open),
   .ok (.ElementStart ⟨"", 4⟩ ⟨"b", 4⟩), .ok (.ElementEnd .Empty),
   .ok (.Text ⟨"x", 7⟩),
   .ok (.ElementEnd (.Close ⟨"", 10⟩ ⟨"a", 10⟩))]


lemma finishAttrList_repo (repo : InfoSetData) (docH : Nat) (m : ElemMachine)
    (acc : AttrAccum) (sc : Bool) (repo2 : InfoSetData)
    (h : (finishAttrList repo docH m acc sc).repoOf = some repo2) :
    RepoStep repo repo2 := by
  obtain ⟨stack, root, st, ph⟩ := m
  cases stack <;> cases root <;> cases sc <;>
    simp only [finishAttrList, append_to_element_as_child, newElementInfoItem,
      List.head?, Option.map, StepOut.repoOf, Option.isSome, Bool.not_true,
      Bool.not_false, if_true, if_false, ite_true, ite_false] at h <;>
    first
    | exact Option.noConfusion h
    | (injection h with h2; subst h2; exact ⟨rfl, rfl, Or.inr ⟨_, rfl, rfl, rfl⟩⟩)

lemma elemStep_repo (repo : InfoSetData) (docH : Nat) (m : ElemMachine) (tok : XmlToken)
    (repo2 : InfoSetData) (h : (elemStep repo docH m tok).repoOf = some repo2) :
    RepoStep repo repo2 := by
  obtain ⟨stack, root, st, ph⟩ := m
  cases ph with
  | attrs acc =>
    cases tok with
    | Attribute p l v =>
      simp only [elemStep] at h
      split at h
      · rcases hd : acc.default_namespace_attribute with _ | d <;> rw [hd] at h <;>
          simp only [StepOut.repoOf] at h
        · injection h with h2; subst h2; exact ⟨rfl, rfl, Or.inl rfl⟩
        · exact Option.noConfusion h
      · split at h <;> simp only [StepOut.repoOf] at h <;>
          (injection h with h2; subst h2; exact ⟨rfl, rfl, Or.inl rfl⟩)
    | ElementEnd e =>
      cases e with
      | Open => exact finishAttrList_repo _ _ _ _ _ _ (by simpa [elemStep] using h)
      | Empty => exact finishAttrList_repo _ _ _ _ _ _ (by simpa [elemStep] using h)
      | Close p l => simp [elemStep, StepOut.repoOf] at h
    | Declaration a b c => simp [elemStep, StepOut.repoOf] at h
    | DtdStart => simp [elemStep, StepOut.repoOf] at h
    | EmptyDtd => simp [elemStep, StepOut.repoOf] at h
    | ElementStart a b => simp [elemStep, StepOut.repoOf] at h
    | Text a => simp [elemStep, StepOut.repoOf] at h
    | Cdata a => simp [elemStep, StepOut.repoOf] at h
    | Comment a => simp [elemStep, StepOut.repoOf] at h
    | ProcessingInstruction a b => simp [elemStep, StepOut.repoOf] at h
  | content =>
    cases tok with
    | ElementStart p l =>
      simp only [elemStep, StepOut.repoOf] at h
      injection h with h2; subst h2; exact ⟨rfl, rfl, Or.inl rfl⟩
    | Comment t =>
      cases st <;> cases stack <;>
        simp [elemStep, StepOut.repoOf, append_to_element_as_child, newCommentInfoItem] at h
    | ProcessingInstruction a b =>
      cases st <;> cases stack <;>
        simp [elemStep, StepOut.repoOf, append_to_element_as_child, newPIInfoItem] at h
    | ElementEnd e =>
      cases st <;> cases e <;> cases stack <;>
        simp only [elemStep] at h <;>
        (try split at h) <;> (try split at h) <;> (try split at h) <;>
        simp only [StepOut.repoOf] at h <;>
        first
        | exact Option.noConfusion h
        | (injection h with h2; subst h2; exact ⟨rfl, rfl, Or.inl rfl⟩)
    | Declaration a b c => simp [elemStep, StepOut.repoOf] at h
    | DtdStart => simp [elemStep, StepOut.repoOf] at h
    | EmptyDtd => simp [elemStep, StepOut.repoOf] at h
    | Text a => simp [elemStep, StepOut.repoOf] at h
    | Cdata a => simp [elemStep, StepOut.repoOf] at h
    | Attribute a b c => simp [elemStep, StepOut.repoOf] at h

lemma RepoStep.toInv {repo repo2 : InfoSetData} (h : RepoStep repo repo2) :
    RepoInv repo repo2 := by
  obtain ⟨hd, hc, he⟩ := h
  refine ⟨hd, hc, fun ha e hmem => ?_⟩
  rcases he with he | ⟨x, hx, hxa, hxn⟩
  · exact ha e (he ▸ hmem)
  · rw [hx] at hmem
    rcases List.mem_append.mp hmem with hm | hm
    · exact ha e hm
    · rw [List.mem_singleton.mp hm]
      exact ⟨hxa, hxn⟩

lemma RepoInv.of_eq (repo : InfoSetData) : RepoInv repo repo := ⟨rfl, rfl, id⟩

lemma RepoInv.comp {a b c : InfoSetData} (h1 : RepoInv a b) (h2 : RepoInv b c) :
    RepoInv a c :=
  ⟨h2.1.trans h1.1, h2.2.1.trans h1.2.1, fun ha => h2.2.2 (h1.2.2 ha)⟩

lemma parseRun_inv (docH : Nat) :
    ∀ (ts : List XmlTokenR) (mode : RunMode) (repo repo2 : InfoSetData)
      (re : Option Nat) (st2 : DocState),
      parseRun repo docH mode ts = .ok (repo2, re, st2) → RepoInv repo repo2 := by
  intro ts
  induction ts with
  | nil =>
    intro mode repo repo2 re st2 h
    cases mode with
    | doc st root =>
      simp only [parseRun, POut.ok.injEq, Prod.mk.injEq] at h
      obtain ⟨h1, _h2, _h3⟩ := h
      rw [← h1]
      exact RepoInv.of_eq repo
    | elem m => simp [parseRun] at h
  | cons t rest ih =>
    intro mode repo repo2 re st2 h
    cases t with
    | error e => simp [parseRun] at h
    | ok tok =>
      cases mode with
      | doc st root =>
        cases tok with
        | DtdStart =>
          cases st <;> simp [parseRun, parse_dtd] at h
        | EmptyDtd =>
          cases st <;> simp [parseRun, parse_dtd] at h
        | ElementStart p l =>
          cases st <;> simp only [parseRun] at h <;> try exact POut.noConfusion h
          all_goals {
            cases hs : elemStep repo docH ⟨[], none, .Initial, .content⟩ (.ElementStart p l) with
            | cont r2 m2 =>
              rw [hs] at h
              exact RepoInv.comp
                (RepoStep.toInv (elemStep_repo _ _ _ _ _ (by rw [hs]; rfl)))
                (ih _ _ _ _ _ h)
            | finished r2 r =>
              rw [hs] at h
              exact RepoInv.comp
                (RepoStep.toInv (elemStep_repo _ _ _ _ _ (by rw [hs]; rfl)))
                (ih _ _ _ _ _ h)
            | fail e => rw [hs] at h; exact POut.noConfusion h
            | panic => rw [hs] at h; exact POut.noConfusion h
          }
        | Comment a =>
          simp only [parseRun] at h
          exact ih _ _ _ _ _ h
        | ProcessingInstruction a b =>
          simp only [parseRun] at h
          exact ih _ _ _ _ _ h
        | Declaration a b c => simp [parseRun] at h
        | Attribute a b c => simp [parseRun] at h
        | ElementEnd e => simp [parseRun] at h
        | Text a => simp [parseRun] at h
        | Cdata a => simp [parseRun] at h
      | elem m =>
        simp only [parseRun] at h
        cases hs : elemStep repo docH m tok with
        | cont r2 m2 =>
          rw [hs] at h
          exact RepoInv.comp
            (RepoStep.toInv (elemStep_repo _ _ _ _ _ (by rw [hs]; rfl)))
            (ih _ _ _ _ _ h)
        | finished r2 r =>
          rw [hs] at h
          exact RepoInv.comp
            (RepoStep.toInv (elemStep_repo _ _ _ _ _ (by rw [hs]; rfl)))
            (ih _ _ _ _ _ h)
        | fail e => rw [hs] at h; exact POut.noConfusion h
        | panic => rw [hs] at h; exact POut.noConfusion h

lemma parse_xml_doc_ok (repo : InfoSetData) (docH : Nat) (ts : List XmlTokenR)
    (repo2 : InfoSetData) (h : parse_xml_doc repo docH ts = .ok repo2) :
    ∃ xv xe xs rest repoMid r,
      parseXmlDecl ts = .ok ((xv, xe, xs), rest) ∧
      parseRun repo docH (.doc .AfterXmlDecl none) rest =
        .ok (repoMid, some r, .AfterRootElement) ∧
      repo2 = transition_to_parsed_from_not_yet_parsed repoMid docH
        (xv.getD .Version1_0) xe xs r := by
  unfold parse_xml_doc at h
  cases hd : parseXmlDecl ts with
  | err e => rw [hd] at h; exact POut.noConfusion h
  | panic => rw [hd] at h; exact POut.noConfusion h
  | ok v =>
    obtain ⟨⟨xv, xe, xs⟩, rest⟩ := v
    rw [hd] at h
    dsimp only at h
    cases hr : parseRun repo docH (.doc .AfterXmlDecl none) rest with
    | err e => rw [hr] at h; exact POut.noConfusion h
    | panic => rw [hr] at h; exact POut.noConfusion h
    | ok w =>
      obtain ⟨repoMid, re, stF⟩ := w
      rw [hr] at h
      dsimp only at h
      cases stF <;> (try exact POut.noConfusion h)
      cases re with
      | none => exact POut.noConfusion h
      | some r =>
        injection h with h2
        exact ⟨xv, xe, xs, rest, repoMid, r, rfl, hr, h2.symm⟩

lemma parse_ok (input : String) (ts : List XmlTokenR) (iset : InfoSet)
    (h : parse input ts = .ok iset) :
    ∃ repo2, parse_xml_doc ⟨[.NotYetParsed], [], [], [], [], none⟩ 0 ts = .ok repo2 ∧
      iset = ⟨input, { repo2 with doc_info_item := some 0 }⟩ := by
  unfold parse parse_with_statistics newNotYetParsedDocInfoItem at h
  simp only [List.length_nil, List.nil_append] at h
  cases hp : parse_xml_doc ⟨[.NotYetParsed], [], [], [], [], none⟩ 0 ts with
  | err e => rw [hp] at h; exact POut.noConfusion h
  | panic => rw [hp] at h; exact POut.noConfusion h
  | ok repo2 =>
    rw [hp] at h
    injection h with h2
    exact ⟨repo2, rfl, h2.symm⟩

lemma parseXmlDecl_not_decl (ts : List XmlTokenR) (hd : isDeclHead ts = false) :
    parseXmlDecl ts = .ok ((none, none, none), ts) ∨ ∃ e rest, ts = .error e :: rest := by
  match ts with
  | [] => exact Or.inl rfl
  | .error e :: rest => exact Or.inr ⟨e, rest, rfl⟩
  | .ok tok :: rest =>
    cases tok <;> first
      | exact Or.inl rfl
      | simp [isDeclHead] at hd

lemma countDefaultNS_cons_attr (p l v : StrSpan) (rest : List XmlTokenR) :
    countDefaultNS (Except.ok (XmlToken.Attribute p l v) :: rest) =
      countDefaultNS rest +
        (if isDefaultNSTok (Except.ok (XmlToken.Attribute p l v)) then 1 else 0) := by
  simp [countDefaultNS, List.takeWhile_cons, isAttrTok, List.countP_cons]

lemma countDefaultNS_cons_nonattr (t : XmlTokenR) (h : isAttrTok t = false)
    (rest : List XmlTokenR) : countDefaultNS (t :: rest) = 0 := by
  simp [countDefaultNS, List.takeWhile_cons, h]

lemma attrPhase_dup_ns (docH : Nat) :
    ∀ (ts : List XmlTokenR) (repo : InfoSetData) (stack : List ParseStackEntry)
      (root : Option Nat) (st : ElemParseState) (acc : AttrAccum),
      (match acc.default_namespace_attribute with
       | none => 2
       | some _ => 1) ≤ countDefaultNS ts →
      parseRun repo docH (.elem ⟨stack, root, st, .attrs acc⟩) ts =
        .err .DuplicateNSAttribute := by
  intro ts
  induction ts with
  | nil =>
    intro repo stack root st acc hcnt
    rcases hD : acc.default_namespace_attribute with _ | d <;> rw [hD] at hcnt <;>
      simp [countDefaultNS] at hcnt
  | cons t rest ih =>
    intro repo stack root st acc hcnt
    cases t with
    | error e =>
      rw [countDefaultNS_cons_nonattr _ (by simp [isAttrTok])] at hcnt
      rcases hD : acc.default_namespace_attribute with _ | d <;> rw [hD] at hcnt <;> simp at hcnt
    | ok tok =>
      cases tok with
      | Attribute p l v =>
        by_cases hc : (p.asStr.isEmpty && l.asStr == "xmlns") = true
        · have hdn : isDefaultNSTok (Except.ok (XmlToken.Attribute p l v)) = true := hc
          rw [countDefaultNS_cons_attr, hdn] at hcnt
          rcases hD : acc.default_namespace_attribute with _ | d
          · rw [hD] at hcnt
            have hcnt2 : 1 ≤ countDefaultNS rest := by
              simp at hcnt; omega
            simp [parseRun, elemStep, hc, hD]
            exact ih repo stack root st _ hcnt2
          · simp [parseRun, elemStep, hc, hD]
        · have hdn : isDefaultNSTok (Except.ok (XmlToken.Attribute p l v)) = false := by
            simpa [isDefaultNSTok] using hc
          rw [countDefaultNS_cons_attr, hdn] at hcnt
          simp only [Bool.false_eq_true, if_false, Nat.add_zero] at hcnt
          by_cases hc2 : (p.asStr == "xmlns") = true
          · simp [parseRun, elemStep, hc, hc2]
            exact ih repo stack root st _ hcnt
          · simp [parseRun, elemStep, hc, hc2]
            exact ih repo stack root st _ hcnt
      | Declaration a b c =>
        rw [countDefaultNS_cons_nonattr _ (by simp [isAttrTok])] at hcnt
        rcases hD : acc.default_namespace_attribute with _ | d <;> rw [hD] at hcnt <;> simp at hcnt
      | DtdStart =>
        rw [countDefaultNS_cons_nonattr _ (by simp [isAttrTok])] at hcnt
        rcases hD : acc.default_namespace_attribute with _ | d <;> rw [hD] at hcnt <;> simp at hcnt
      | EmptyDtd =>
        rw [countDefaultNS_cons_nonattr _ (by simp [isAttrTok])] at hcnt
        rcases hD : acc.default_namespace_attribute with _ | d <;> rw [hD] at hcnt <;> simp at hcnt
      | ElementStart a b =>
        rw [countDefaultNS_cons_nonattr _ (by simp [isAttrTok])] at hcnt
        rcases hD : acc.default_namespace_attribute with _ | d <;> rw [hD] at hcnt <;> simp at hcnt
      | ElementEnd e =>
        rw [countDefaultNS_cons_nonattr _ (by simp [isAttrTok])] at hcnt
        rcases hD : acc.default_namespace_attribute with _ | d <;> rw [hD] at hcnt <;> simp at hcnt
      | Text a =>
        rw [countDefaultNS_cons_nonattr _ (by simp [isAttrTok])] at hcnt
        rcases hD : acc.default_namespace_attribute with _ | d <;> rw [hD] at hcnt <;> simp at hcnt
      | Cdata a =>
        rw [countDefaultNS_cons_nonattr _ (by simp [isAttrTok])] at hcnt
        rcases hD : acc.default_namespace_attribute with _ | d <;> rw [hD] at hcnt <;> simp at hcnt
      | Comment a =>
        rw [countDefaultNS_cons_nonattr _ (by simp [isAttrTok])] at hcnt
        rcases hD : acc.default_namespace_attribute with _ | d <;> rw [hD] at hcnt <;> simp at hcnt
      | ProcessingInstruction a b =>
        rw [countDefaultNS_cons_nonattr _ (by simp [isAttrTok])] at hcnt
        rcases hD : acc.default_namespace_attribute with _ | d <;> rw [hD] at hcnt <;> simp at hcnt

lemma close_mismatch_step (repo : InfoSetData) (docH : Nat) (entry : ParseStackEntry)
    (stack : List ParseStackEntry) (root : Option Nat) (st : ElemParseState)
    (p l : StrSpan) (ts : List XmlTokenR)
    (hst : st = .AfterDescent ∨ st = .AfterAppend ∨ st = .AfterUnwind)
    (hne : (entry.pfx.nameEq p && entry.local_name.nameEq l) = false) :
    parseRun repo docH (.elem ⟨entry :: stack, root, st, .content⟩)
      (.ok (.ElementEnd (.Close p l)) :: ts) = .err .UnexpectedToken := by
  rcases hst with rfl | rfl | rfl <;> simp [parseRun, elemStep, hne]

lemma text_step_rejected (repo : InfoSetData) (docH : Nat) (m : ElemMachine)
    (text : StrSpan) (ts : List XmlTokenR) :
    parseRun repo docH (.elem m) (.ok (.Text text) :: ts) = .err .UnexpectedToken := by
  obtain ⟨stack, root, st, ph⟩ := m
  cases ph <;> simp [parseRun, elemStep]

lemma parse_ok_chargroups (input : String) (ts : List XmlTokenR) (iset : InfoSet)
    (h : parse input ts = POut.ok iset) : iset.data.chargroups = [] := by
  obtain ⟨repo2, hp, hiset⟩ := parse_ok input ts iset h
  obtain ⟨xv, xe, xs, rest, repoMid, r, hdecl, hrun, htrans⟩ := parse_xml_doc_ok _ _ _ _ hp
  obtain ⟨_, hcg, _⟩ := parseRun_inv 0 rest (.doc .AfterXmlDecl none) _ _ _ _ hrun
  subst hiset htrans
  simpa [transition_to_parsed_from_not_yet_parsed] using hcg

/-- C1 counterexample: on the two-root input `<a/><b/>` the parser does not
return DuplicateRootElement; it returns UnexpectedToken instead. -/
theorem c1_not_duplicate_root_error :
    parse c1input c1tokens = POut.err ParseError.UnexpectedToken ∧
    parse c1input c1tokens ≠ POut.err ParseError.DuplicateRootElement := by
  constructor
  · decide
  · decide

/-- C1 (amended): for the input `<a/><b/>` — a document in which a second
top-level element follows the root element — `parse` returns the error
UnexpectedToken: the document-level machine rejects the second element-start
in the AfterRootElement state, before the
DuplicateRootElement branch could fire. -/
theorem c1_second_root_rejected_as_unexpected_token :
    parse c1input c1tokens = POut.err ParseError.UnexpectedToken := by decide

/-- C2 (code bug evaluation): on the input `<a><b/><!--c--></a>` the parse
does not succeed with the two children; it panics, because
append_to_element_as_child is `todo!()` and is reached when the child
element `b` is appended to `a`. -/
theorem c2_append_child_panics : parse c2input c2tokens = POut.panic := by decide

/-- C3: for the input `<a/>`, `parse` succeeds; the document_element of the returned Document is an Element whose local-name span materializes to `a`,
with an empty children list and an empty attributes list. -/
theorem c3_single_empty_root_element :
    parse c3input c3tokens = POut.ok c3result ∧
    docDocumentElement c3result = some 0 ∧
    elementOf c3result 0 = some c3rootElem ∧
    Span.get c3rootElem.local_name c3result = Except.ok "a" ∧
    c3rootElem.children = [] ∧ c3rootElem.attributes = [] := by
  refine ⟨by decide, by decide, by decide, by decide, rfl, rfl⟩

/-- C4: for every input, `parse` is exactly `parse_with_statistics` with the
statistics component dropped: it succeeds with the first component of the
pair precisely when the latter succeeds, and returns the identical
ParseError (or panic) otherwise. -/
theorem c4_parse_refines_parse_with_statistics (input : String) (ts : List XmlTokenR) :
    parse input ts = POut.mapVal Prod.fst (parse_with_statistics input ts) := by
  cases h : parse_with_statistics input ts with
  | ok v => obtain ⟨i, s⟩ := v; simp [parse, POut.mapVal, h]
  | err e => simp [parse, POut.mapVal, h]
  | panic => simp [parse, POut.mapVal, h]

/-- C5: when the token stream does not begin with an XML declaration and
`parse` succeeds, the resulting version of the Document is Version1_0 and its
character_encoding_scheme and standalone fields are both absent. -/
theorem c5_default_document_fields (input : String) (ts : List XmlTokenR) (iset : InfoSet)
    (hd : isDeclHead ts = false) (h : parse input ts = POut.ok iset) :
    docVersion iset = some Version.Version1_0 ∧
    docEncodingScheme iset = some none ∧
    docStandalone iset = some none := by
  obtain ⟨repo2, hp, hiset⟩ := parse_ok input ts iset h
  obtain ⟨xv, xe, xs, rest, repoMid, r, hdecl, hrun, htrans⟩ := parse_xml_doc_ok _ _ _ _ hp
  rcases parseXmlDecl_not_decl ts hd with hnd | ⟨e, rest2, hts⟩
  · rw [hnd] at hdecl
    injection hdecl with h2
    injection h2 with h3 h4
    injection h3 with h5 h6
    injection h6 with h7 h8
    obtain ⟨hdocs, _, _⟩ := parseRun_inv 0 rest (.doc .AfterXmlDecl none) _ _ _ _ hrun
    subst hiset htrans
    rw [← h5, ← h7, ← h8]
    simp [docVersion, docEncodingScheme, docStandalone, docOf,
      transition_to_parsed_from_not_yet_parsed, hdocs]
  · rw [hts] at hdecl
    simp [parseXmlDecl] at hdecl

/-- C5 witness: the declaration-free stream of `<a/>` parses with the
defaulted document fields. -/
theorem c5_default_document_fields_witness :
    docVersion c3result = some Version.Version1_0 ∧
    docEncodingScheme c3result = some none ∧
    docStandalone c3result = some none :=
  c5_default_document_fields c3input c3tokens c3result (by decide) (by decide)

/-- C6: a second unprefixed `xmlns` attribute in the attribute list of an element-start makes the attribute sub-loop fail with DuplicateNSAttribute,
and on the concrete input with two default-namespace declarations `parse`
returns exactly that error. -/
theorem c6_duplicate_default_namespace_rejected :
    (∀ (repo : InfoSetData) (docH : Nat) (stack : List ParseStackEntry)
       (root : Option Nat) (st : ElemParseState) (acc : AttrAccum) (ts : List XmlTokenR),
       acc.default_namespace_attribute = none → 2 ≤ countDefaultNS ts →
       parseRun repo docH (.elem ⟨stack, root, st, .attrs acc⟩) ts =
         .err .DuplicateNSAttribute) ∧
    parse c6input c6tokens = POut.err ParseError.DuplicateNSAttribute := by
  constructor
  · intro repo docH stack root st acc ts hD hcnt
    apply attrPhase_dup_ns
    rw [hD]
    exact hcnt
  · decide

/-- C6 witness: the attribute sub-loop on the two concrete `xmlns` tokens of
`<a xmlns="urn:x" xmlns="urn:y"/>` fails with DuplicateNSAttribute. -/
theorem c6_duplicate_default_namespace_rejected_witness :
    parseRun {} 0 (.elem ⟨[], none, .Initial,
        .attrs ⟨⟨"", 1⟩, ⟨"a", 1⟩, [], [], none⟩⟩)
      [.ok (.Attribute ⟨"", 3⟩ ⟨"xmlns", 3⟩ ⟨"urn:x", 10⟩),
       .ok (.Attribute ⟨"", 17⟩ ⟨"xmlns", 17⟩ ⟨"urn:y", 24⟩),
       .ok (.ElementEnd .Empty)] = POut.err ParseError.DuplicateNSAttribute :=
  c6_duplicate_default_namespace_rejected.1 {} 0 [] none .Initial _ _ rfl (by decide)

/-- C7: whenever the prefix of an element-end token and local name do not both
equal those of the most recently opened, still-open frame, the machine
fails with UnexpectedToken; in particular `parse` on `<a></b>` returns
UnexpectedToken. -/
theorem c7_close_name_mismatch_rejected :
    (∀ (repo : InfoSetData) (docH : Nat) (entry : ParseStackEntry)
       (stack : List ParseStackEntry) (root : Option Nat) (st : ElemParseState)
       (p l : StrSpan) (ts : List XmlTokenR),
       (st = .AfterDescent ∨ st = .AfterAppend ∨ st = .AfterUnwind) →
       (entry.pfx.nameEq p && entry.local_name.nameEq l) = false →
       parseRun repo docH (.elem ⟨entry :: stack, root, st, .content⟩)
         (.ok (.ElementEnd (.Close p l)) :: ts) = .err .UnexpectedToken) ∧
    parse c7input c7tokens = POut.err ParseError.UnexpectedToken :=
  ⟨fun repo docH entry stack root st p l ts hst hne =>
     close_mismatch_step repo docH entry stack root st p l ts hst hne,
   by decide⟩

/-- C7 witness: the concrete mismatched closing tag `</b>` against the open
frame of `<a>` is rejected with UnexpectedToken. -/
theorem c7_close_name_mismatch_rejected_witness :
    parseRun {} 0 (.elem ⟨[⟨0, ⟨"", 1⟩, ⟨"a", 1⟩⟩], some 0, .AfterDescent, .content⟩)
      [.ok (.ElementEnd (.Close ⟨"", 5⟩ ⟨"b", 5⟩))] = POut.err ParseError.UnexpectedToken :=
  c7_close_name_mismatch_rejected.1 {} 0 ⟨0, ⟨"", 1⟩, ⟨"a", 1⟩⟩ [] (some 0) .AfterDescent
    ⟨"", 5⟩ ⟨"b", 5⟩ [] (Or.inl rfl) (by decide)

/-- C8: the optional-span conversion stores a zero-length captured span as
absent and a non-empty one as exactly its byte range; it never produces
`some` of an empty range. -/
theorem c8_optional_span_empty_absent (v : StrSpan) :
    (v.range.start < v.range.stop → optSpanFromXmlStrSpan v = some v.range) ∧
    (¬ v.range.start < v.range.stop → optSpanFromXmlStrSpan v = none) ∧
    (∀ s, optSpanFromXmlStrSpan v = some s → s = v.range ∧ s.start < s.stop) := by
  refine ⟨fun h => ?_, fun h => ?_, fun s hs => ?_⟩
  · simp [optSpanFromXmlStrSpan, rangeIsEmpty, h]
  · simp [optSpanFromXmlStrSpan, rangeIsEmpty, h]
  · by_cases h : v.range.start < v.range.stop
    · simp [optSpanFromXmlStrSpan, rangeIsEmpty, h] at hs
      exact ⟨hs.symm, hs ▸ h⟩
    · simp [optSpanFromXmlStrSpan, rangeIsEmpty, h] at hs

/-- C8 witness: a one-byte span is kept as exactly its range, an empty span
becomes absent. -/
theorem c8_optional_span_empty_absent_witness :
    optSpanFromXmlStrSpan ⟨"a", 1⟩ = some ⟨1, 2⟩ ∧
    optSpanFromXmlStrSpan ⟨"", 5⟩ = none :=
  ⟨((c8_optional_span_empty_absent ⟨"a", 1⟩).1 (by decide)).trans (by decide),
   (c8_optional_span_empty_absent ⟨"", 5⟩).2.1 (by decide)⟩

/-- C9: for every successful parse, every Element node in the returned graph
has an empty attributes list and an empty namespace_attributes list. -/
theorem c9_attribute_lists_always_empty (input : String) (ts : List XmlTokenR)
    (iset : InfoSet) (h : parse input ts = POut.ok iset) :
    ∀ e ∈ iset.data.elements, e.attributes = [] ∧ e.namespace_attributes = [] := by
  obtain ⟨repo2, hp, hiset⟩ := parse_ok input ts iset h
  obtain ⟨xv, xe, xs, rest, repoMid, r, hdecl, hrun, htrans⟩ := parse_xml_doc_ok _ _ _ _ hp
  obtain ⟨_, _, hattrs⟩ := parseRun_inv 0 rest (.doc .AfterXmlDecl none) _ _ _ _ hrun
  subst hiset htrans
  intro e he
  have hA : allAttrsEmpty repoMid := by
    apply hattrs
    intro x hx
    simp at hx
  apply hA
  simpa [transition_to_parsed_from_not_yet_parsed] using he

/-- C9 witness: the root element parsed from `<a/>` has empty attribute
lists. -/
theorem c9_attribute_lists_always_empty_witness :
    c3rootElem.attributes = [] ∧ c3rootElem.namespace_attributes = [] :=
  c9_attribute_lists_always_empty c3input c3tokens c3result (by decide) c3rootElem (by decide)

/-- C10 counterexample: the input `<a><b/>x</a>` has a character-data token
inside the subtree of the root element, yet `parse` does not return
UnexpectedToken — it panics in the unimplemented child append before the
text token is reached. -/
theorem c10_not_all_text_inputs_unexpected_token :
    parse c10binput c10btokens = POut.panic ∧
    parse c10binput c10btokens ≠ POut.err ParseError.UnexpectedToken := by
  constructor
  · decide
  · decide

/-- C10 (amended): whenever the element-subtree machine consumes a
character-data token it fails with UnexpectedToken; no CharGroup node is
ever created by parsing (the char-group arena of every successful result is
empty); concretely `<a>x</a>` yields UnexpectedToken. -/
theorem c10_text_token_always_rejected :
    (∀ (repo : InfoSetData) (docH : Nat) (m : ElemMachine) (text : StrSpan)
       (ts : List XmlTokenR),
       parseRun repo docH (.elem m) (.ok (.Text text) :: ts) = .err .UnexpectedToken) ∧
    (∀ (input : String) (ts : List XmlTokenR) (iset : InfoSet),
       parse input ts = POut.ok iset → iset.data.chargroups = []) ∧
    parse c10input c10tokens = POut.err ParseError.UnexpectedToken :=
  ⟨text_step_rejected, parse_ok_chargroups, by decide⟩

/-- C10 witness: a concrete text token is rejected by the element machine,
and the successful parse of `<a/>` holds no char-group nodes. -/
theorem c10_text_token_always_rejected_witness :
    parseRun {} 0 (.elem ⟨[], none, .Initial, .content⟩) [.ok (.Text ⟨"x", 3⟩)] =
      POut.err ParseError.UnexpectedToken ∧
    c3result.data.chargroups = [] :=
  ⟨c10_text_token_always_rejected.1 {} 0 ⟨[], none, .Initial, .content⟩ ⟨"x", 3⟩ [],
   c10_text_token_always_rejected.2.1 c3input c3tokens c3result (by decide)⟩

end XmlInfoset
